import Mathlib

/-!
# Verification of the CRUD Specification/Filter/Repository subsystem

Shallow embedding of the data-access layer of the `telegram-bot` backend:

* `app/crud/specification.py` — `Specification`, `IdSpecification`,
  `EmailSpecification`, `UsernameSpecification`;
* `app/crud/filter.py` — `IndexFilter.filter`, `UniqueFilter.filter`;
* `app/crud/user.py` — `UserRepository.read_by_id`,
  `UserRepository.create_user`;
* `app/core/security/password.py` — `get_password_hash`,
  `verify_password`.

Python exceptions are embedded as `Except PyError`; the database session
is embedded as an explicit `Session` state (a list of committed rows plus
a flag that makes every driver operation raise `SQLAlchemyError`, the
persistence-failure family).  Only `SQLAlchemyError` is ever raised by
the embedded driver operations, exactly the family caught by the
`except SQLAlchemyError` handlers in the source.

The decorators `with_logging` and `benchmark` (from `app/core/decorators`,
not part of the excerpt) only log and time the wrapped coroutine per the
specification ("Filters log everything"); logging has no observable
effect on values, so they are embedded as identity wrappers.
-/

/-- A Python runtime value as stored in `Specification.value`
(`value: Any` in the source): the ids, usernames and e-mails the
specifications carry. -/
inductive PyValue where
  | int (n : Int)
  | str (s : String)
deriving DecidableEq, Repr

/-- The subfamily of `SQLAlchemyError` raised by the embedded driver
operations: `NoResultFound` / `MultipleResultsFound` come from
`.one()`, `operationalError` stands for any other driver failure. -/
inductive SQLKind where
  | noResultFound
  | multipleResultsFound
  | operationalError
deriving DecidableEq, Repr

/-- The exception classes the embedded code can raise.
`databaseException` embeds `DatabaseException`.  Modelled from the spec:
`app/core/security/exception.py` is not part of the excerpt; the spec
describes `DatabaseException` as "the single domain exception type
exposed upward", carrying the wrapped driver error's message — an
exception class holding a message string. -/
inductive PyError where
  | sqlalchemyError (kind : SQLKind) (msg : String)
  | databaseException (msg : String)
  | valueError (msg : String)
deriving DecidableEq, Repr

/-- `isinstance(e, SQLAlchemyError)`: the guard of every
`except SQLAlchemyError` handler in the source. -/
def PyError.isSQLAlchemyError : PyError → Bool
  | .sqlalchemyError _ _ => true
  | _ => false

/-- `str(e)` on an exception: the message it carries. -/
def PyError.msg : PyError → String
  | .sqlalchemyError _ m => m
  | .databaseException m => m
  | .valueError m => m

/-- The decorator `with_logging` from `app/core/decorators` (not in the
excerpt).  Modelled from the spec: it only logs the call, so it returns
the wrapped function unchanged. -/
def with_logging {α : Type} (f : α) : α := f

/-- The decorator `benchmark` from `app/core/decorators` (not in the
excerpt).  Modelled from the spec: it only times the call, so it returns
the wrapped function unchanged. -/
def benchmark {α : Type} (f : α) : α := f

/-- The runtime class of a `Specification` object
(`app/crud/specification.py`).  Python dispatches nothing on it — the
annotations `IdSpecification` / `Union[UsernameSpecification,
EmailSpecification]` on the filters are static hints only — but it is
recorded so that independence from the subtype can be stated. -/
inductive SpecClass where
  | idSpecification
  | emailSpecification
  | usernameSpecification
deriving DecidableEq, Repr

/-- `Specification` (`app/crud/specification.py`): a plain Python class
whose `__init__` stores `value` unconditionally.  `cls` is the runtime
class of the object. -/
structure Specification where
  cls : SpecClass
  value : PyValue
deriving DecidableEq, Repr

/-- `IdSpecification(obj_id)`: `super().__init__(obj_id)` — stores the
argument.  `Specification` is a plain class, not a pydantic `BaseModel`,
so the `PositiveInt` annotation on `obj_id` is a static hint that Python
does not check at runtime. -/
def IdSpecification (obj_id : Int) : Specification :=
  ⟨.idSpecification, .int obj_id⟩

/-- `EmailSpecification(email)`: stores the argument (the `EmailStr`
annotation is likewise unchecked at runtime on a plain class). -/
def EmailSpecification (email : String) : Specification :=
  ⟨.emailSpecification, .str email⟩

/-- `UsernameSpecification(username)`: stores the argument. -/
def UsernameSpecification (username : String) : Specification :=
  ⟨.usernameSpecification, .str username⟩

/-- Runtime behaviour of `IdSpecification.__init__` viewed as a
fallible operation, as Python executes it: the body is
`super().__init__(obj_id)` on a plain (non-pydantic) class, which
performs no validation and cannot raise, whatever integer is passed. -/
def IdSpecification.init (obj_id : Int) : Except PyError Specification :=
  .ok (IdSpecification obj_id)

/-- A committed row of the `users` table (`app/models/user.py`),
restricted to the columns the CRUD layer reads or writes.  The
server-assigned timestamp columns are omitted: no claim mentions them. -/
structure UserRow where
  id : Int
  username : String
  email : String
  first_name : String
  middle_name : Option String
  last_name : String
  password : String
  gender : Option String
  birthdate : Option String
  phone_number : Option String
  city : Option String
  country : Option String
  is_active : Bool
  is_superuser : Bool
deriving DecidableEq, Repr

/-- The persistence session (`AsyncSession`), embedded as explicit
state: the committed rows, plus a flag under which every driver
operation raises `SQLAlchemyError` (the "persistence-layer failure" of
the spec). -/
structure Session where
  rows : List UserRow
  fail : Bool
deriving DecidableEq, Repr

/-- `async_session.get(model, _id)`: direct primary-key fetch.  Returns
the row whose `id` column equals the given value, or `None`; raises
`SQLAlchemyError` on driver failure. -/
def Session.get (s : Session) (_id : PyValue) : Except PyError (Option UserRow) :=
  if s.fail then
    .error (.sqlalchemyError .operationalError "database failure")
  else
    .ok (s.rows.find? (fun r => PyValue.int r.id == _id))

/-- `(await async_session.scalars(stmt)).one()` for a
`select(model).where(<column> = value)` statement: raises
`NoResultFound` when no row matches, `MultipleResultsFound` when more
than one does, and returns the row when exactly one matches; raises
`SQLAlchemyError` on driver failure.  Both error classes are subclasses
of `SQLAlchemyError`. -/
def Session.scalars_one (s : Session) (pred : UserRow → Bool) :
    Except PyError UserRow :=
  if s.fail then
    .error (.sqlalchemyError .operationalError "database failure")
  else
    match s.rows.filter pred with
    | [] => .error (.sqlalchemyError .noResultFound
        "No row was found when one was required")
    | [r] => .ok r
    | _ :: _ :: _ => .error (.sqlalchemyError .multipleResultsFound
        "Multiple rows were found when exactly one was required")

/-- `IndexFilter.filter` (`app/crud/filter.py` lines 56–71): primary-key
lookup; `db_obj` starts as `None`, the `except SQLAlchemyError` handler
logs and falls through, so on driver failure the still-`None` `db_obj`
is returned.  The `model` argument is always the `User` class and the
`field` argument is unused, so neither is embedded. -/
def IndexFilter.filter (spec : Specification) (session : Session) :
    Except PyError (Option UserRow) :=
  with_logging (benchmark (
    let _id : PyValue := spec.value
    let db_obj : Option UserRow := none
    match session.get _id with
    | .ok r => .ok r
    | .error e => if e.isSQLAlchemyError then .ok db_obj else .error e))

/-- The body of `UniqueFilter.filter` after the statement is built: run
the query, check the result is a `User` instance (every row of the
embedded store is one, so the check cannot fire), and log-and-re-raise
any `SQLAlchemyError`. -/
def UniqueFilter.run_stmt (session : Session) (pred : UserRow → Bool) :
    Except PyError UserRow :=
  match session.scalars_one pred with
  | .ok db_obj => .ok db_obj
  | .error e => if e.isSQLAlchemyError then .error e else .error e

/-- `UniqueFilter.filter` (`app/crud/filter.py` lines 75–102): builds
`WHERE username = spec.value` or `WHERE email = spec.value` according
to the `field` selector alone, raises `ValueError` for any other
selector, and expects exactly one matching row. -/
def UniqueFilter.filter (spec : Specification) (session : Session)
    (field : String) : Except PyError UserRow :=
  with_logging (benchmark (
    if field == "username" then
      UniqueFilter.run_stmt session (fun r => PyValue.str r.username == spec.value)
    else if field == "email" then
      UniqueFilter.run_stmt session (fun r => PyValue.str r.email == spec.value)
    else
      .error (.valueError "Invalid field specified for filtering")))

/-- `UniqueFilter.filter` invoked without a `field` argument: the
source declares `field: str = "email"`. -/
def UniqueFilter.filter_default (spec : Specification) (session : Session) :
    Except PyError UserRow :=
  UniqueFilter.filter spec session "email"

/-- `UserRepository.read_by_id` (`app/crud/user.py` lines 41–57):
delegates to `IndexFilter.filter` on the repository's session; the
`except SQLAlchemyError` handler wraps such an error as
`DatabaseException(str(e))` and re-raises. -/
def UserRepository.read_by_id (session : Session) (_id : Specification) :
    Except PyError (Option UserRow) :=
  match IndexFilter.filter _id session with
  | .ok user => .ok user
  | .error e =>
    if e.isSQLAlchemyError then .error (.databaseException e.msg)
    else .error e

/-- `crypt_context.hash` of the passlib `CryptContext` (external
collaborator, bcrypt scheme).  Modelled abstractly but faithfully to the
modular-crypt format: the digest is the `$2b$12$` header followed by
salt-and-checksum material derived from the password; what the
development uses is only that the output differs from every plaintext
(bcrypt output always carries the header) and that `verify` accepts
exactly a password's own digest. -/
def crypt_context_hash (password : String) : String :=
  "$2b$12$" ++ password

/-- `crypt_context.verify(plain, hashed)` of the passlib `CryptContext`:
accepts exactly when `hashed` is a digest of `plain`. -/
def crypt_context_verify (plain_password hashed_password : String) : Bool :=
  hashed_password == crypt_context_hash plain_password

/-- `get_password_hash` (`app/core/security/password.py` lines 14–26):
rejects a falsy (empty) password with `ValueError`, otherwise delegates
to the crypt context. -/
def get_password_hash (password : String) : Except PyError String :=
  if password == "" then
    .error (.valueError "Password cannot be empty or None")
  else
    .ok (crypt_context_hash password)

/-- `verify_password` (`app/core/security/password.py` lines 29–47):
rejects a falsy plain or hashed password with `ValueError`, otherwise
delegates to the crypt context. -/
def verify_password (hashed_password plain_password : String) :
    Except PyError Bool :=
  if plain_password == "" then
    .error (.valueError "Plain password cannot be empty or None")
  else if hashed_password == "" then
    .error (.valueError "Hashed password cannot be empty or None")
  else
    .ok (crypt_context_verify plain_password hashed_password)

/-- The `UserCreate` schema (`app/schemas/user.py`): the client-supplied
fields of a create request, with the schema's declared defaults for the
optional ones.  `UserSuperCreate` only adds `is_superuser`; the claims
quantify over `UserCreate` inputs, so that variant is not embedded. -/
structure UserCreate where
  username : String
  email : String
  first_name : String
  last_name : String
  middle_name : Option String
  gender : Option String
  birthdate : Option String
  phone_number : Option String
  city : Option String
  country : Option String
  password : String
deriving DecidableEq, Repr

/-- Pydantic validity of a `UserCreate` payload, restricted to the
length constraints the development needs (`username` 4–15 characters,
`password` 8–14 characters); the format regexes only narrow this set
further, so every input pydantic accepts satisfies this predicate. -/
def UserCreate.valid (u : UserCreate) : Prop :=
  4 ≤ u.username.length ∧ u.username.length ≤ 15 ∧
    8 ≤ u.password.length ∧ u.password.length ≤ 14

instance (u : UserCreate) : Decidable u.valid := by
  unfold UserCreate.valid; infer_instance

/-- `User(**user_in.dict())` materialised at commit time: the ORM row
built from the create schema, with the server-assigned primary key and
the column defaults `is_active=true`, `is_superuser=false`
(`app/models/user.py`). -/
def User.fromCreate (new_id : Int) (u : UserCreate) : UserRow :=
  { id := new_id
    username := u.username
    email := u.email
    first_name := u.first_name
    middle_name := u.middle_name
    last_name := u.last_name
    password := u.password
    gender := u.gender
    birthdate := u.birthdate
    phone_number := u.phone_number
    city := u.city
    country := u.country
    is_active := true
    is_superuser := false }

/-- The primary key the database sequence assigns to the next inserted
row: one more than the largest committed id. -/
def Session.next_id (s : Session) : Int :=
  (s.rows.map (fun r => r.id)).foldr max 0 + 1

/-- Steps 1–2 of `create_user`: `user.copy(update={"password":
hashed_password})` followed by `User(**user_in.dict())` — the persisted
row is the input with the hash substituted for the plaintext password
and every other supplied field carried over unchanged. -/
def UserRepository.build_row (new_id : Int) (user : UserCreate)
    (hashed_password : String) : UserRow :=
  User.fromCreate new_id { user with password := hashed_password }

/-- Lines 82–86 of `app/crud/user.py`: the continuation of
`create_user` on the result of the post-insert re-read.  A `None`
re-read raises `DatabaseException("User could not be created.")`; a row
is returned as is; an exception propagates.  `create_user` applies this
continuation exactly once — there is no retry. -/
def create_user_after_insert
    (created_user : Except PyError (Option UserRow)) :
    Except PyError UserRow :=
  match created_user with
  | .error e => .error e
  | .ok none => .error (.databaseException "User could not be created.")
  | .ok (some user) => .ok user

/-- `UserRepository.create_user` (`app/crud/user.py` lines 59–86),
returning the result together with the session state it leaves behind:
hash the password, build the row, `add` + `commit` it (wrapping a
driver failure as `DatabaseException`; an uncommitted transaction
leaves the store unchanged), then re-read the row by its newly
assigned id through `read_by_id`. -/
def UserRepository.create_user (session : Session) (user : UserCreate) :
    Except PyError UserRow × Session :=
  with_logging (benchmark (
    match get_password_hash user.password with
    | .error e => (.error e, session)
    | .ok hashed_password =>
      let new_id : Int := session.next_id
      let user_create : UserRow :=
        UserRepository.build_row new_id user hashed_password
      if session.fail then
        (.error (.databaseException
          (PyError.msg (.sqlalchemyError .operationalError "database failure"))),
         session)
      else
        let committed : Session := { session with rows := session.rows ++ [user_create] }
        (create_user_after_insert
          (UserRepository.read_by_id committed (IdSpecification new_id)),
         committed)))

/-- The predicate `WHERE <field> = spec.value` that `UniqueFilter.filter`
builds for a valid field selector: the selected column compared against
the specification's value. -/
def field_pred (field : String) (spec : Specification) (r : UserRow) : Bool :=
  if field == "username" then PyValue.str r.username == spec.value
  else PyValue.str r.email == spec.value

/-- The create payload of the spec's §8 scenario (optional fields at
the schema defaults). -/
def sample_user : UserCreate :=
  { username := "alice01"
    email := "alice@example.com"
    first_name := "Alice"
    last_name := "Doe"
    middle_name := none
    gender := none
    birthdate := none
    phone_number := none
    city := some "Guayaquil"
    country := some "Ecuador"
    password := "Valid$Pass1" }

/-! ## Basic lemmas about the lookup path -/

/-- Closed form of `IndexFilter.filter`: it never raises — on driver
failure the `except SQLAlchemyError` handler swallows the error and the
initial `None` is returned; otherwise the primary-key fetch result is
returned. -/
theorem IndexFilter.filter_eq (spec : Specification) (s : Session) :
    IndexFilter.filter spec s =
      .ok (if s.fail then none
        else s.rows.find? (fun r => PyValue.int r.id == spec.value)) := by
  unfold IndexFilter.filter with_logging benchmark Session.get
  cases hf : s.fail <;> simp [hf, PyError.isSQLAlchemyError]

/-- `read_by_id` forwards exactly what `IndexFilter.filter` produced:
since the filter never raises, the repository's
`except SQLAlchemyError` wrap-and-re-raise branch never runs. -/
theorem UserRepository.read_by_id_eq (s : Session) (spec : Specification) :
    UserRepository.read_by_id s spec = IndexFilter.filter spec s := by
  unfold UserRepository.read_by_id
  rw [IndexFilter.filter_eq]

/-! ## C1 -/

/-- C1, refuted at a concrete input: on a session whose driver raises
(`fail = true`, empty store), the primary-key fetch does raise a
persistence-layer `SQLAlchemyError`, yet `UserRepository.read_by_id`
returns `None` — it does not re-raise a `DatabaseException` — because
`IndexFilter.filter` already swallowed the error. -/
theorem read_by_id_failure_counterexample :
    Session.get ⟨[], true⟩ (PyValue.int 1) =
      .error (.sqlalchemyError .operationalError "database failure") ∧
    IndexFilter.filter (IdSpecification 1) ⟨[], true⟩ = .ok none ∧
    UserRepository.read_by_id ⟨[], true⟩ (IdSpecification 1) = .ok none :=
  ⟨rfl, rfl, rfl⟩

/-- C1, amended: a persistence-layer failure raised during the lookup is
swallowed inside `IndexFilter.filter`, which returns `None`, so
`read_by_id` returns `None` as well instead of translating the failure
into a `DatabaseException`; `read_by_id` always returns exactly what the
filter returned. -/
theorem read_by_id_swallows_lookup_failure (s : Session)
    (spec : Specification) :
    UserRepository.read_by_id s spec = IndexFilter.filter spec s ∧
    (s.fail = true → UserRepository.read_by_id s spec = .ok none) := by
  refine ⟨UserRepository.read_by_id_eq s spec, fun hf => ?_⟩
  rw [UserRepository.read_by_id_eq, IndexFilter.filter_eq, hf]
  simp

/-- Witness for the amended C1 theorem on a concrete failing session. -/
theorem read_by_id_swallows_lookup_failure_witness :
    UserRepository.read_by_id ⟨[], true⟩ (IdSpecification 7) =
      IndexFilter.filter (IdSpecification 7) ⟨[], true⟩ ∧
    UserRepository.read_by_id ⟨[], true⟩ (IdSpecification 7) = .ok none :=
  ⟨(read_by_id_swallows_lookup_failure ⟨[], true⟩ (IdSpecification 7)).1,
   (read_by_id_swallows_lookup_failure ⟨[], true⟩ (IdSpecification 7)).2 rfl⟩

/-! ## C3 -/

/-- C3: for every positive id absent from storage,
`read_by_id (IdSpecification id)` returns `None` and raises nothing. -/
theorem read_by_id_absent_returns_none (s : Session) (n : Int)
    (hpos : 0 < n) (habs : ∀ r ∈ s.rows, r.id ≠ n) :
    UserRepository.read_by_id s (IdSpecification n) = .ok none := by
  rw [UserRepository.read_by_id_eq, IndexFilter.filter_eq]
  cases hf : s.fail
  · have hnone :
        s.rows.find? (fun r => PyValue.int r.id == (IdSpecification n).value)
          = none := by
      apply List.find?_eq_none.mpr
      intro r hr
      simpa [IdSpecification] using habs r hr
    simp [hnone]
  · simp

/-- Witness for C3: the spec's own scenario, id 999999 on empty
storage. -/
theorem read_by_id_absent_returns_none_witness :
    UserRepository.read_by_id ⟨[], false⟩ (IdSpecification 999999) =
      .ok none :=
  read_by_id_absent_returns_none ⟨[], false⟩ 999999 (by decide)
    (by intro r hr; cases hr)

/-! ## C4 -/

/-- C4: the code as it runs.  `IdSpecification(-5)` is constructed
without any `ValidationError` — `Specification` is a plain class, so the
`PositiveInt` annotation is never enforced — the non-positive value is
stored, and it reaches the Filter/Repository layer, where the lookup
simply finds nothing. -/
theorem id_specification_nonpositive_accepted :
    IdSpecification.init (-5) = .ok (IdSpecification (-5)) ∧
    (IdSpecification (-5)).value = PyValue.int (-5) ∧
    UserRepository.read_by_id ⟨[], false⟩ (IdSpecification (-5)) =
      .ok none :=
  ⟨rfl, rfl, rfl⟩

/-! ## C2 -/

/-- C2: with a valid field selector, `UniqueFilter.filter` raises
whenever the number of rows matching `<field> = spec.value` is not
exactly one (zero-match and ambiguous-match both raise, and so does a
driver failure), and it returns a row only when exactly one row
matches. -/
theorem unique_filter_exactly_one (s : Session) (spec : Specification)
    (field : String) (hfield : field = "username" ∨ field = "email") :
    ((s.rows.filter (field_pred field spec)).length ≠ 1 →
      ∃ e, UniqueFilter.filter spec s field = .error e) ∧
    (∀ r, UniqueFilter.filter spec s field = .ok r →
      (s.rows.filter (field_pred field spec)).length = 1) := by
  have hmatch : UniqueFilter.filter spec s field =
      UniqueFilter.run_stmt s (field_pred field spec) := by
    rcases hfield with h | h <;> subst h <;> rfl
  rw [hmatch]
  unfold UniqueFilter.run_stmt Session.scalars_one
  cases hf : s.fail
  · rcases hl : s.rows.filter (field_pred field spec) with _ | ⟨a, _ | ⟨b, l⟩⟩ <;>
      simp [PyError.isSQLAlchemyError]
  · simp [PyError.isSQLAlchemyError]

/-- Witness for C2 in the zero-match case: an empty store with the
`email` selector. -/
theorem unique_filter_exactly_one_witness :
    ((Session.rows ⟨[], false⟩).filter
        (field_pred "email" (EmailSpecification "a@b.co"))).length ≠ 1 ∧
    (∃ e, UniqueFilter.filter (EmailSpecification "a@b.co") ⟨[], false⟩
        "email" = .error e) :=
  ⟨by decide,
   (unique_filter_exactly_one ⟨[], false⟩ (EmailSpecification "a@b.co")
      "email" (Or.inr rfl)).1 (by decide)⟩

/-! ## C8 -/

/-- C8: for every field selector other than `"username"` and `"email"`,
`UniqueFilter.filter` raises the `ValueError` of the source, for all
specifications and sessions. -/
theorem unique_filter_invalid_field (s : Session) (spec : Specification)
    (field : String) (h1 : field ≠ "username") (h2 : field ≠ "email") :
    UniqueFilter.filter spec s field =
      .error (.valueError "Invalid field specified for filtering") := by
  unfold UniqueFilter.filter with_logging benchmark
  simp [h1, h2]

/-- Witness for C8 at the concrete selector `"id"`. -/
theorem unique_filter_invalid_field_witness :
    UniqueFilter.filter (EmailSpecification "a@b.co") ⟨[], false⟩ "id" =
      .error (.valueError "Invalid field specified for filtering") :=
  unique_filter_invalid_field ⟨[], false⟩ (EmailSpecification "a@b.co")
    "id" (by decide) (by decide)

/-! ## C9 -/

/-- C9: `UniqueFilter.filter` depends only on `spec.value` and the
`field` selector, never on the runtime subtype of the specification: a
`UsernameSpecification` under the `"email"` selector (the declared
default) runs the query comparing the `email` column against the
username value, exactly as an `EmailSpecification` carrying the same
string would. -/
theorem unique_filter_subtype_independent :
    (∀ (c c' : SpecClass) (v : PyValue) (s : Session) (field : String),
      UniqueFilter.filter ⟨c, v⟩ s field = UniqueFilter.filter ⟨c', v⟩ s field) ∧
    (∀ (u : String) (s : Session),
      UniqueFilter.filter (UsernameSpecification u) s "email" =
        UniqueFilter.filter (EmailSpecification u) s "email") ∧
    (∀ (u : String) (s : Session),
      UniqueFilter.filter (UsernameSpecification u) s "email" =
        UniqueFilter.run_stmt s (fun r => PyValue.str r.email == PyValue.str u)) ∧
    (∀ (spec : Specification) (s : Session),
      UniqueFilter.filter_default spec s = UniqueFilter.filter spec s "email") :=
  ⟨fun _ _ _ _ _ => rfl, fun _ _ => rfl, fun _ _ => rfl, fun _ _ => rfl⟩

/-! ## Lemmas about create_user -/

/-- A non-empty password hashes without error. -/
theorem get_password_hash_ok (password : String) (h : password ≠ "") :
    get_password_hash password = .ok (crypt_context_hash password) := by
  unfold get_password_hash
  simp [h]

/-- A valid create payload has a non-empty password (its length is at
least 8). -/
theorem UserCreate.valid_password_ne (u : UserCreate) (hv : u.valid) :
    u.password ≠ "" := by
  intro h
  have h8 := hv.2.2.1
  rw [h] at h8
  simp at h8

/-- Every member of a list of integers is at most its `foldr max 0`. -/
theorem le_foldr_max (l : List Int) (a : Int) (h : a ∈ l) :
    a ≤ l.foldr max 0 := by
  induction l with
  | nil => cases h
  | cons b t ih =>
    rcases List.mem_cons.mp h with h | h
    · subst h; exact le_max_left _ _
    · exact le_trans (ih h) (le_max_right _ _)

/-- The sequence-assigned id is strictly larger than every committed
id. -/
theorem Session.next_id_gt (s : Session) (r : UserRow) (h : r ∈ s.rows) :
    r.id < s.next_id := by
  have hle : r.id ≤ (s.rows.map (fun x => x.id)).foldr max 0 :=
    le_foldr_max _ _ (List.mem_map_of_mem _ h)
  unfold Session.next_id
  omega

/-- After committing a row whose id is strictly larger than every
existing id, `read_by_id` on that id finds exactly the new row. -/
theorem read_by_id_after_insert (rows : List UserRow) (row : UserRow)
    (hgt : ∀ r ∈ rows, r.id < row.id) :
    UserRepository.read_by_id ⟨rows ++ [row], false⟩
      (IdSpecification row.id) = .ok (some row) := by
  rw [UserRepository.read_by_id_eq, IndexFilter.filter_eq]
  have hnone :
      rows.find? (fun r => PyValue.int r.id == PyValue.int row.id) = none := by
    apply List.find?_eq_none.mpr
    intro r hr
    have := hgt r hr
    simp
    omega
  have hval : (IdSpecification row.id).value = PyValue.int row.id := rfl
  simp [hval, List.find?_append, hnone]

/-! ## C5 -/

/-- C5: for every valid create input, the row built for insertion
carries the hash in the password field and every other supplied field
unchanged (the id is the server-assigned one passed in). -/
theorem create_user_row_frame (new_id : Int) (user : UserCreate)
    (hv : user.valid) :
    ∃ hashed, get_password_hash user.password = .ok hashed ∧
      (UserRepository.build_row new_id user hashed).password = hashed ∧
      (UserRepository.build_row new_id user hashed).username = user.username ∧
      (UserRepository.build_row new_id user hashed).email = user.email ∧
      (UserRepository.build_row new_id user hashed).first_name = user.first_name ∧
      (UserRepository.build_row new_id user hashed).middle_name = user.middle_name ∧
      (UserRepository.build_row new_id user hashed).last_name = user.last_name ∧
      (UserRepository.build_row new_id user hashed).gender = user.gender ∧
      (UserRepository.build_row new_id user hashed).birthdate = user.birthdate ∧
      (UserRepository.build_row new_id user hashed).phone_number = user.phone_number ∧
      (UserRepository.build_row new_id user hashed).city = user.city ∧
      (UserRepository.build_row new_id user hashed).country = user.country ∧
      (UserRepository.build_row new_id user hashed).id = new_id :=
  ⟨crypt_context_hash user.password,
   get_password_hash_ok user.password (user.valid_password_ne hv),
   rfl, rfl, rfl, rfl, rfl, rfl, rfl, rfl, rfl, rfl, rfl, rfl⟩

/-- Witness for C5 on the spec's §8 payload. -/
theorem create_user_row_frame_witness :
    ∃ hashed, get_password_hash sample_user.password = .ok hashed ∧
      (UserRepository.build_row 1 sample_user hashed).password = hashed ∧
      (UserRepository.build_row 1 sample_user hashed).username = sample_user.username ∧
      (UserRepository.build_row 1 sample_user hashed).email = sample_user.email ∧
      (UserRepository.build_row 1 sample_user hashed).first_name = sample_user.first_name ∧
      (UserRepository.build_row 1 sample_user hashed).middle_name = sample_user.middle_name ∧
      (UserRepository.build_row 1 sample_user hashed).last_name = sample_user.last_name ∧
      (UserRepository.build_row 1 sample_user hashed).gender = sample_user.gender ∧
      (UserRepository.build_row 1 sample_user hashed).birthdate = sample_user.birthdate ∧
      (UserRepository.build_row 1 sample_user hashed).phone_number = sample_user.phone_number ∧
      (UserRepository.build_row 1 sample_user hashed).city = sample_user.city ∧
      (UserRepository.build_row 1 sample_user hashed).country = sample_user.country ∧
      (UserRepository.build_row 1 sample_user hashed).id = 1 :=
  create_user_row_frame 1 sample_user (by decide)

/-! ## C6 -/

/-- C6: a `None` re-read after a successful insert is turned into
`DatabaseException("User could not be created.")` by the single,
unretried post-insert check of `create_user`, and a successful re-read
is returned as is — the continuation never produces a null success. -/
theorem create_user_null_reread_raises :
    create_user_after_insert (.ok none) =
      .error (.databaseException "User could not be created.") ∧
    (∀ u : UserRow, create_user_after_insert (.ok (some u)) = .ok u) :=
  ⟨rfl, fun _ => rfl⟩

/-! ## C7 -/

/-- C7: for every valid create input on a non-failing session,
`create_user` succeeds and returns an entity whose password field
differs from the input plaintext and is accepted by `verify_password`
against that plaintext. -/
theorem create_user_hashes_password (s : Session) (user : UserCreate)
    (hv : user.valid) (hfail : s.fail = false) :
    ∃ row committed,
      UserRepository.create_user s user = (.ok row, committed) ∧
      row.password ≠ user.password ∧
      verify_password row.password user.password = .ok true := by
  have hne := user.valid_password_ne hv
  have hhash := get_password_hash_ok user.password hne
  refine ⟨UserRepository.build_row s.next_id user (crypt_context_hash user.password),
    ⟨s.rows ++ [UserRepository.build_row s.next_id user (crypt_context_hash user.password)],
      false⟩, ?_, ?_, ?_⟩
  · have hgt : ∀ r ∈ s.rows,
        r.id < (UserRepository.build_row s.next_id user
          (crypt_context_hash user.password)).id :=
      fun r hr => s.next_id_gt r hr
    have hread := read_by_id_after_insert s.rows
      (UserRepository.build_row s.next_id user (crypt_context_hash user.password)) hgt
    have hread2 : UserRepository.read_by_id
        ⟨s.rows ++ [UserRepository.build_row s.next_id user
          (crypt_context_hash user.password)], false⟩
        (IdSpecification s.next_id) =
        .ok (some (UserRepository.build_row s.next_id user
          (crypt_context_hash user.password))) := hread
    unfold UserRepository.create_user with_logging benchmark
    rw [hhash]
    simp only [hfail, Bool.false_eq_true, if_false]
    rw [hread2]
    rfl
  · intro h
    have hlen : ("$2b$12$" ++ user.password).length = user.password.length :=
      congrArg String.length h
    rw [String.length_append] at hlen
    have h7 : ("$2b$12$" : String).length = 7 := rfl
    omega
  · have hhne : crypt_context_hash user.password ≠ "" := by
      intro h
      have hlen : ("$2b$12$" ++ user.password).length = ("" : String).length :=
        congrArg String.length h
      rw [String.length_append] at hlen
      have h7 : ("$2b$12$" : String).length = 7 := rfl
      have h0 : ("" : String).length = 0 := rfl
      omega
    have hbp : (UserRepository.build_row s.next_id user
        (crypt_context_hash user.password)).password =
        crypt_context_hash user.password := rfl
    rw [hbp]
    unfold verify_password
    simp [hne, hhne, crypt_context_verify]

/-- Witness for C7: the spec's §8 scenario payload on an empty,
healthy store. -/
theorem create_user_hashes_password_witness :
    ∃ row committed,
      UserRepository.create_user ⟨[], false⟩ sample_user = (.ok row, committed) ∧
      row.password ≠ sample_user.password ∧
      verify_password row.password sample_user.password = .ok true :=
  create_user_hashes_password ⟨[], false⟩ sample_user (by decide) rfl

/-! ## C10 -/

/-- C10: the password is hashed before any session interaction, so an
empty password makes `create_user` raise the hashing collaborator's
`ValueError` and leaves the session state exactly as it was — nothing
is added or committed. -/
theorem create_user_empty_password_leaves_db (s : Session)
    (user : UserCreate) (h : user.password = "") :
    UserRepository.create_user s user =
      (.error (.valueError "Password cannot be empty or None"), s) := by
  unfold UserRepository.create_user with_logging benchmark get_password_hash
  rw [h]
  simp

/-- Witness for C10: the §8 payload with the password emptied, on an
empty store. -/
theorem create_user_empty_password_leaves_db_witness :
    UserRepository.create_user ⟨[], false⟩ { sample_user with password := "" } =
      (.error (.valueError "Password cannot be empty or None"), ⟨[], false⟩) :=
  create_user_empty_password_leaves_db ⟨[], false⟩
    { sample_user with password := "" } rfl
